import Mathlib

/-! Verification of the LED packet-encoding core of `led.py` (NZXT smart device
LED controller). The functions below are a shallow embedding of the Python
source: colors are triples of Python integers, the two 65-byte USB frames are
lists of integers, and the `bytes(...)` conversion that `write` receives is
modelled by an explicit range check, since Python's `bytes` constructor raises
`ValueError` on a value outside range(0, 256). A call that raises is modelled
as `Except.error`; a call that reaches the transport `write` is modelled as
`Except.ok` carrying the frame pair (or the list of frame pairs, for modes
that issue several writes). -/

/-- An RGB color triple of Python integers (red, green, blue). -/
abbrev Color := Int × Int × Int

/-- Number of LEDs of the controller (`LED_COUNT = 20`). -/
def LED_COUNT : Nat := 20

/-- A Python `ValueError` carrying its message. -/
inductive PyError where
  | valueError (msg : String)
deriving DecidableEq

/- Preset-mode constants from class `PresetMode`. -/
namespace PresetMode

def FIXED : Nat := 0

def MARQUEE : Nat := 3

def ALTERNATING : Nat := 5

end PresetMode

/- Custom-mode constants from class `CustomMode`. -/
namespace CustomMode

def BREATHING : Nat := 7

end CustomMode

/-- Reordering step of `set_led` (line 117): each (r, g, b) tuple becomes (g, r, b). -/
def grbTuples (colors : List Color) : List Color :=
  colors.map (fun c => (c.2.1, c.1, c.2.2))

/-- Flattening step of `set_led` (line 118): the reordered tuples, flattened to
one flat list of channel bytes (`colors_flat` in the source). -/
def colorsFlat (colors : List Color) : List Int :=
  ((grbTuples colors).map (fun t => [t.1, t.2.1, t.2.2])).flatten

/-- One value is representable in a Python `bytes` object: in range(0, 256). -/
def validByte (x : Int) : Bool := decide (0 ≤ x) && decide (x < 256)

/-- The `bytes(packet1), bytes(packet2)` conversion performed in the argument
list of `write` (line 139): it fails with `ValueError` when some element is
out of byte range, before any USB write happens. -/
def pyBytes (p1 p2 : List Int) : Except PyError (List Int × List Int) :=
  if p1.all validByte && p2.all validByte then .ok (p1, p2)
  else .error (.valueError "bytes must be in range(0, 256)")

/-- The `fill` helper nested in `set_led` (lines 131-134): pad with zeroes on
the right to length 65; lists already of length at least 65 are untouched. -/
def fill (data : List Int) : List Int :=
  if data.length < 65 then data ++ List.replicate (65 - data.length) 0 else data

/-- The five header bytes of packet 1 (lines 121-127). -/
def header (mode index speed direction option_byte led_group_size : Nat) : List Int :=
  [2, 75, (mode : Int),
   (((direction <<< 4) ||| (option_byte <<< 3) : Nat) : Int),
   (((index <<< 5) ||| (led_group_size <<< 3) ||| speed : Nat) : Int)]

/-- Lines 111-139, `set_led`: the low level LED interface. Rejects more than
20 colors, reorders and flattens the colors, builds the two packets (packet 1
takes the first 57 flat bytes after the 5 header bytes, packet 2 the rest
after its report id 3), zero-fills both to 65 bytes, and converts them with
`bytes(...)`. The `.ok` value is the frame pair handed to `write`. -/
def set_led (mode : Nat) (colors : List Color)
    (index speed direction option_byte led_group_size : Nat) :
    Except PyError (List Int × List Int) :=
  if 20 < colors.length then
    .error (.valueError "too many colors (there are only 20 leds)")
  else
    pyBytes
      (fill (header mode index speed direction option_byte led_group_size ++
        (colorsFlat colors).take 57))
      (fill (3 :: (colorsFlat colors).drop 57))

/-- Lines 104-108, `set_led_preset`: repeat one color for each of the 20 LEDs
and delegate to `set_led`. The Python defaults are index=0, r=0, g=0, b=255,
speed=0, direction=0, option_byte=0, led_group_size=0; callers of this Lean
function pass those defaults explicitly. -/
def set_led_preset (mode index : Nat) (r g b : Int)
    (speed direction option_byte led_group_size : Nat) :
    Except PyError (List Int × List Int) :=
  set_led mode (List.replicate LED_COUNT (r, g, b)) index speed direction option_byte
    led_group_size

/-- Lines 162-166, `fixed`: fixed color for all LEDs. Only the mode and the
color channels are passed to `set_led_preset`; every other parameter takes its
Python default, in particular speed defaults to 0. -/
def fixed (color : Color) : Except PyError (List Int × List Int) :=
  set_led_preset PresetMode.FIXED 0 color.1 color.2.1 color.2.2 0 0 0 0

/-- Lines 183-193, `marquee`: moving row of LEDs. The size must be between 3
and 6 and is encoded as `size - 3` in the group-size field. -/
def marquee (color : Color) (speed direction : Nat) (size : Int) :
    Except PyError (List Int × List Int) :=
  if size < 3 ∨ 6 < size then .error (.valueError "size has to be between 3 and 6")
  else
    set_led_preset PresetMode.MARQUEE 0 color.1 color.2.1 color.2.2 speed direction 0
      (size - 3).toNat

/-- Lines 219-235, `alternating`: alternate LED rows between two colors. After
the shared size check it issues two `set_led_preset` calls in order, color1 at
index 0 and color2 at index 1, both with `option_byte = int(moving)` and
`led_group_size = size - 3`. The `.ok` value lists the two frame pairs in the
order they are written. -/
def alternating (color1 color2 : Color) (speed direction : Nat) (size : Int)
    (moving : Bool) : Except PyError (List (List Int × List Int)) :=
  if size < 3 ∨ 6 < size then .error (.valueError "size has to be between 3 and 6")
  else do
    let p1 ← set_led_preset PresetMode.ALTERNATING 0 color1.1 color1.2.1 color1.2.2
      speed direction (if moving then 1 else 0) (size - 3).toNat
    let p2 ← set_led_preset PresetMode.ALTERNATING 1 color2.1 color2.2.1 color2.2.2
      speed direction (if moving then 1 else 0) (size - 3).toNat
    return [p1, p2]

/-- Lines 260-263, `custom_breathing`: breathing with a different color for
each LED. The `speed` keyword is accepted but never forwarded to `set_led`,
which therefore runs with all its scalar defaults (index 0, speed 0,
direction 0, option byte 0, group size 0). -/
def custom_breathing (colors : List Color) (speed : Nat) :
    Except PyError (List Int × List Int) :=
  set_led CustomMode.BREATHING colors 0 0 0 0 0

/-- All three channels of a color fit in a byte. -/
def validColor (c : Color) : Prop :=
  0 ≤ c.1 ∧ c.1 < 256 ∧ 0 ≤ c.2.1 ∧ c.2.1 < 256 ∧ 0 ≤ c.2.2 ∧ c.2.2 < 256

instance : DecidablePred validColor := fun c => by
  unfold validColor; infer_instance

/-! Basic lemmas about the embedded definitions. -/

lemma validByte_iff {x : Int} : validByte x = true ↔ 0 ≤ x ∧ x < 256 := by
  simp [validByte]

lemma fill_eq {d : List Int} (h : d.length ≤ 65) :
    fill d = d ++ List.replicate (65 - d.length) 0 := by
  unfold fill
  split
  · rfl
  · have h65 : d.length = 65 := by omega
    simp [h65]

lemma length_fill {d : List Int} (h : d.length ≤ 65) : (fill d).length = 65 := by
  rw [fill_eq h, List.length_append, List.length_replicate]
  omega

lemma fill_take {d : List Int} : (fill d).take d.length = d := by
  unfold fill
  split
  · rw [List.take_left]
  · exact List.take_of_length_le (by omega)

lemma fill_of_length_ge {d : List Int} (h : 65 ≤ d.length) : fill d = d := by
  unfold fill
  rw [if_neg (by omega)]

lemma mem_fill {x : Int} {d : List Int} (hx : x ∈ fill d) : x ∈ d ∨ x = 0 := by
  unfold fill at hx
  split at hx
  · rcases List.mem_append.mp hx with h | h
    · exact Or.inl h
    · exact Or.inr (List.eq_of_mem_replicate h)
  · exact Or.inl hx

lemma colorsFlat_length (cs : List Color) : (colorsFlat cs).length = 3 * cs.length := by
  induction cs with
  | nil => rfl
  | cons c t ih =>
    simp only [colorsFlat, grbTuples, List.map_cons, List.flatten_cons,
      List.length_append, List.length_cons] at ih ⊢
    simp only [List.length_nil, List.length_cons]
    omega

lemma mem_colorsFlat {x : Int} {cs : List Color} (hx : x ∈ colorsFlat cs) :
    ∃ c ∈ cs, x = c.2.1 ∨ x = c.1 ∨ x = c.2.2 := by
  simp only [colorsFlat, grbTuples, List.mem_flatten, List.mem_map] at hx
  obtain ⟨l, ⟨t, ⟨c, hc, ht⟩, hl⟩, hxl⟩ := hx
  subst ht hl
  refine ⟨c, hc, ?_⟩
  simpa using hxl

lemma channel_mem_colorsFlat {cs : List Color} {c : Color} (hc : c ∈ cs) :
    c.1 ∈ colorsFlat cs ∧ c.2.1 ∈ colorsFlat cs ∧ c.2.2 ∈ colorsFlat cs := by
  refine ⟨?_, ?_, ?_⟩ <;>
  · simp only [colorsFlat, grbTuples, List.mem_flatten, List.mem_map]
    exact ⟨_, ⟨_, ⟨c, hc, rfl⟩, rfl⟩, by simp⟩

lemma validByte_of_mem_colorsFlat {x : Int} {cs : List Color}
    (hc : ∀ c ∈ cs, validColor c) (hx : x ∈ colorsFlat cs) : validByte x = true := by
  obtain ⟨c, hmem, hch⟩ := mem_colorsFlat hx
  have hv := hc c hmem
  unfold validColor at hv
  rcases hch with h | h | h <;> subst h <;> exact validByte_iff.mpr (by tauto)

lemma set_led_ok_elim {mode index speed direction option_byte led_group_size : Nat}
    {colors : List Color} {f1 f2 : List Int}
    (h : set_led mode colors index speed direction option_byte led_group_size =
      .ok (f1, f2)) :
    colors.length ≤ 20 ∧
    f1 = fill (header mode index speed direction option_byte led_group_size ++
      (colorsFlat colors).take 57) ∧
    f2 = fill (3 :: (colorsFlat colors).drop 57) := by
  unfold set_led at h
  split at h
  · exact absurd h (by simp)
  · rename_i hlen
    unfold pyBytes at h
    split at h
    · rw [Except.ok.injEq, Prod.mk.injEq] at h
      exact ⟨by omega, h.1.symm, h.2.symm⟩
    · exact absurd h (by simp)

lemma set_led_ok_of_valid {mode index speed direction option_byte led_group_size : Nat}
    {colors : List Color}
    (hn : colors.length ≤ 20) (hm : mode < 256)
    (hdo : (direction <<< 4) ||| (option_byte <<< 3) < 256)
    (higs : (index <<< 5) ||| (led_group_size <<< 3) ||| speed < 256)
    (hc : ∀ c ∈ colors, validColor c) :
    set_led mode colors index speed direction option_byte led_group_size =
      .ok (fill (header mode index speed direction option_byte led_group_size ++
             (colorsFlat colors).take 57),
           fill (3 :: (colorsFlat colors).drop 57)) := by
  unfold set_led
  rw [if_neg (by omega)]
  unfold pyBytes
  rw [if_pos]
  rw [Bool.and_eq_true, List.all_eq_true, List.all_eq_true]
  constructor
  · intro x hx
    rcases mem_fill hx with hx | hx
    · rcases List.mem_append.mp hx with hx | hx
      · simp only [header, List.mem_cons, List.not_mem_nil, or_false] at hx
        rcases hx with h | h | h | h | h <;> subst h <;>
          refine validByte_iff.mpr ⟨?_, ?_⟩ <;>
          first
            | exact_mod_cast hm
            | exact_mod_cast hdo
            | exact_mod_cast higs
            | exact Int.natCast_nonneg _
            | decide
      · exact validByte_of_mem_colorsFlat hc (List.take_subset _ _ hx)
    · subst hx; simp [validByte]
  · intro x hx
    rcases mem_fill hx with hx | hx
    · rcases List.mem_cons.mp hx with h | h
      · subst h; simp [validByte]
      · exact validByte_of_mem_colorsFlat hc (List.drop_subset _ _ h)
    · subst hx; simp [validByte]

lemma mem_fill_of_mem {x : Int} {d : List Int} (hx : x ∈ d) : x ∈ fill d := by
  unfold fill
  split
  · exact List.mem_append.mpr (Or.inl hx)
  · exact hx

lemma frame1_take_five {mode index speed direction option_byte led_group_size : Nat}
    {colors : List Color} {f1 f2 : List Int}
    (h : set_led mode colors index speed direction option_byte led_group_size =
      .ok (f1, f2)) :
    f1.take 5 = header mode index speed direction option_byte led_group_size := by
  obtain ⟨hn, h1, -⟩ := set_led_ok_elim h
  have hlen : (header mode index speed direction option_byte led_group_size ++
      (colorsFlat colors).take 57).length ≤ 65 := by
    simp only [List.length_append, List.length_take, header, List.length_cons,
      List.length_nil]
    omega
  rw [h1, fill_eq hlen, List.append_assoc,
    show (5 : Nat) = (header mode index speed direction option_byte led_group_size).length
      from rfl,
    List.take_left]

lemma dir_opt_byte_lt {d o : Nat} (hd : d ≤ 1) (ho : o ≤ 1) :
    (d <<< 4) ||| (o <<< 3) < 32 := by
  have hd' : d = 0 ∨ d = 1 := by omega
  have ho' : o = 0 ∨ o = 1 := by omega
  rcases hd' with h | h <;> rcases ho' with h' | h' <;> subst h <;> subst h' <;> decide

lemma packed_byte_lt {a b c : Nat} (ha : a ≤ 7) (hb : b ≤ 3) (hc : c ≤ 7) :
    (a <<< 5) ||| (b <<< 3) ||| c < 256 := by
  have h1 : (a <<< 5) ||| (b <<< 3) < 2 ^ 8 :=
    Nat.or_lt_two_pow (by rw [Nat.shiftLeft_eq]; omega) (by rw [Nat.shiftLeft_eq]; omega)
  have h2 : (a <<< 5) ||| (b <<< 3) ||| c < 2 ^ 8 := Nat.or_lt_two_pow h1 (by omega)
  simpa using h2

/-! Claim theorems. -/

/-- C1 (counterexample): calling `fixed((255,0,0))` does not produce the frame 1
header bytes `[2,75,0,0,2]` claimed by the spec; the actual header is
`[2,75,0,0,0]`, because `fixed` passes no speed and `set_led_preset` defaults
speed to 0, not to NORMAL=2. -/
theorem spec_C1_counterexample :
    (fixed ((255 : Int), 0, 0)).toOption.map (fun p => p.1.take 5) ≠
      some [2, 75, 0, 0, 2] ∧
    (fixed ((255 : Int), 0, 0)).toOption.map (fun p => p.1.take 5) =
      some [2, 75, 0, 0, 0] := by
  constructor
  · decide
  · decide

/-- C1 (amended): `fixed((255,0,0))` produces frame 1 with header bytes
`[2,75,0,0,0]` (mode FIXED=0, direction/option byte 0, index/group/speed byte 0
because the unspecified speed defaults to 0 in `set_led_preset`), followed by
20 repetitions of the GRB triple (0,255,0), with the first 57 color bytes in
frame 1 (then 3 zero-padding bytes) and the remaining 3 color bytes plus zero
padding in frame 2. -/
theorem spec_C1_amended :
    fixed ((255 : Int), 0, 0) =
      .ok ([2, 75, 0, 0, 0] ++
             ((List.replicate 20 ([0, 255, 0] : List Int)).flatten.take 57) ++
             List.replicate 3 0,
           3 :: ((List.replicate 20 ([0, 255, 0] : List Int)).flatten.drop 57 ++
             List.replicate 61 0)) := by
  rfl

/-- C3: whenever `set_led` succeeds (0 to 20 colors), both emitted frames have
length exactly 65, and the `fill` zero padding never truncates existing
content: the padded list always starts with the original data, and a list
already of length at least 65 is returned unchanged. -/
theorem spec_C3 (mode index speed direction option_byte led_group_size : Nat)
    (colors : List Color) (f1 f2 : List Int)
    (h : set_led mode colors index speed direction option_byte led_group_size =
      .ok (f1, f2)) :
    f1.length = 65 ∧ f2.length = 65 ∧
    (∀ d : List Int, (fill d).take d.length = d) ∧
    (∀ d : List Int, 65 ≤ d.length → fill d = d) := by
  obtain ⟨hn, h1, h2⟩ := set_led_ok_elim h
  have hfl := colorsFlat_length colors
  have hl1 : (header mode index speed direction option_byte led_group_size ++
      (colorsFlat colors).take 57).length ≤ 65 := by
    simp only [List.length_append, List.length_take, header, List.length_cons,
      List.length_nil]
    omega
  have hl2 : ((3 : Int) :: (colorsFlat colors).drop 57).length ≤ 65 := by
    simp only [List.length_cons, List.length_drop]
    omega
  exact ⟨by rw [h1]; exact length_fill hl1, by rw [h2]; exact length_fill hl2,
    fun d => fill_take, fun d hd => fill_of_length_ge hd⟩

/-- C3 (witness): a concrete successful `set_led` call whose two frames have
length 65. -/
theorem spec_C3_witness :
    ∃ f1 f2, set_led 0 [((1 : Int), 2, 3)] 0 0 0 0 0 = .ok (f1, f2) ∧
      f1.length = 65 ∧ f2.length = 65 := by
  obtain ⟨f1, f2, hok⟩ : ∃ f1 f2, set_led 0 [((1 : Int), 2, 3)] 0 0 0 0 0 =
      .ok (f1, f2) := ⟨_, _, rfl⟩
  have h := spec_C3 0 0 0 0 0 0 [((1 : Int), 2, 3)] f1 f2 hok
  exact ⟨f1, f2, hok, h.1, h.2.1⟩

/-- C5: `set_led` called with more than 20 colors fails with the ValueError
naming the 20-LED limit, and no frame pair is ever produced on that path, so
nothing reaches the transport `write`. -/
theorem spec_C5 (mode index speed direction option_byte led_group_size : Nat)
    (colors : List Color) (h : 20 < colors.length) :
    set_led mode colors index speed direction option_byte led_group_size =
      .error (.valueError "too many colors (there are only 20 leds)") ∧
    ∀ frames, set_led mode colors index speed direction option_byte led_group_size ≠
      .ok frames := by
  have he : set_led mode colors index speed direction option_byte led_group_size =
      .error (.valueError "too many colors (there are only 20 leds)") := by
    unfold set_led
    rw [if_pos h]
  exact ⟨he, fun frames hok => by rw [he] at hok; exact Except.noConfusion hok⟩

/-- C5 (witness): `set_led` with 21 colors fails with the too-many-colors
error and never returns frames. -/
theorem spec_C5_witness :
    set_led 0 (List.replicate 21 ((0 : Int), 0, 0)) 0 0 0 0 0 =
      .error (.valueError "too many colors (there are only 20 leds)") ∧
    ∀ frames, set_led 0 (List.replicate 21 ((0 : Int), 0, 0)) 0 0 0 0 0 ≠
      .ok frames :=
  spec_C5 0 0 0 0 0 0 (List.replicate 21 ((0 : Int), 0, 0)) (by decide)

/-- C7: for every in-range color (r,g,b) the flattening step emits the wire
bytes in GRB order (`colorsFlat [(r,g,b)] = [g,r,b]`), and for every color
sequence the flattened output is the concatenation of the per-color GRB
triples in sequence order, of length three times the number of colors. -/
theorem spec_C7 (r g b : Int)
    (hr : 0 ≤ r ∧ r ≤ 255) (hg : 0 ≤ g ∧ g ≤ 255) (hb : 0 ≤ b ∧ b ≤ 255) :
    colorsFlat [(r, g, b)] = [g, r, b] ∧
    (∀ cs : List Color,
      colorsFlat cs = (cs.map (fun c => [c.2.1, c.1, c.2.2])).flatten) ∧
    (∀ cs : List Color, (colorsFlat cs).length = 3 * cs.length) := by
  refine ⟨rfl, fun cs => ?_, fun cs => colorsFlat_length cs⟩
  simp only [colorsFlat, grbTuples, List.map_map]
  rfl

/-- C7 (witness): the GRB reorder and the length law at concrete colors. -/
theorem spec_C7_witness :
    colorsFlat [((255 : Int), 0, 0)] = [0, 255, 0] ∧
    (colorsFlat [((255 : Int), 0, 0), (1, 2, 3)]).length = 3 * 2 := by
  have h := spec_C7 255 0 0 (by norm_num) (by norm_num) (by norm_num)
  exact ⟨h.1, h.2.2 [((255 : Int), 0, 0), (1, 2, 3)]⟩

/-- C10: `custom_breathing` accepts a speed argument but its output does not
depend on it: for any color list and any two speeds the results are
byte-identical, because the speed is never forwarded to `set_led`; moreover on
success the whole packed index/group/speed header byte of frame 1 is 0 (frame
1 starts `[2, 75, 7, 0, 0]`). -/
theorem spec_C10 (colors : List Color) (s1 s2 : Nat) :
    custom_breathing colors s1 = custom_breathing colors s2 ∧
    ∀ f1 f2, custom_breathing colors s1 = .ok (f1, f2) →
      f1.take 5 = [2, 75, 7, 0, 0] := by
  refine ⟨rfl, fun f1 f2 h => ?_⟩
  have h' : set_led CustomMode.BREATHING colors 0 0 0 0 0 = .ok (f1, f2) := h
  rw [frame1_take_five h']
  rfl

/-- C10 (witness): at a concrete color list, speeds 0 and 7 give identical
output and the packed header byte is 0. -/
theorem spec_C10_witness :
    custom_breathing [((1 : Int), 2, 3)] 0 = custom_breathing [((1 : Int), 2, 3)] 7 ∧
    ∃ f1 f2, custom_breathing [((1 : Int), 2, 3)] 0 = .ok (f1, f2) ∧
      f1.take 5 = [2, 75, 7, 0, 0] := by
  obtain ⟨f1, f2, hok⟩ : ∃ f1 f2, custom_breathing [((1 : Int), 2, 3)] 0 =
      .ok (f1, f2) := ⟨_, _, rfl⟩
  exact ⟨(spec_C10 [((1 : Int), 2, 3)] 0 7).1, f1, f2, hok,
    (spec_C10 [((1 : Int), 2, 3)] 0 7).2 f1 f2 hok⟩

lemma exists_invalid_channel {cs : List Color} {c : Color} (hc : c ∈ cs)
    (hbad : ¬ validColor c) :
    ∃ x ∈ colorsFlat cs, validByte x = false := by
  obtain ⟨h1, h2, h3⟩ := channel_mem_colorsFlat hc
  unfold validColor at hbad
  have hsplit : ¬ (0 ≤ c.1 ∧ c.1 < 256) ∨ ¬ (0 ≤ c.2.1 ∧ c.2.1 < 256) ∨
      ¬ (0 ≤ c.2.2 ∧ c.2.2 < 256) := by tauto
  rcases hsplit with hx | hx | hx
  · refine ⟨c.1, h1, ?_⟩
    cases hvb : validByte c.1
    · rfl
    · exact absurd (validByte_iff.mp hvb) hx
  · refine ⟨c.2.1, h2, ?_⟩
    cases hvb : validByte c.2.1
    · rfl
    · exact absurd (validByte_iff.mp hvb) hx
  · refine ⟨c.2.2, h3, ?_⟩
    cases hvb : validByte c.2.2
    · rfl
    · exact absurd (validByte_iff.mp hvb) hx

/-- C2: on every successful `set_led` call, with 1 to 19 colors all flattened
color bytes appear in frame 1 starting at byte offset 5 (and frame 2 is just
its report id plus padding); with 20 colors the flattened sequence is split
exactly at byte 57 between frame 1 (after its 5 header bytes) and frame 2
(after its report-id byte), reassembling to the full flattened sequence with
no byte duplicated or dropped; and bytes [62..65) of frame 1 are always
zero. -/
theorem spec_C2 (mode index speed direction option_byte led_group_size : Nat)
    (colors : List Color) (f1 f2 : List Int)
    (h : set_led mode colors index speed direction option_byte led_group_size =
      .ok (f1, f2)) :
    (1 ≤ colors.length → colors.length ≤ 19 →
      (f1.drop 5).take (colorsFlat colors).length = colorsFlat colors ∧
      f2 = 3 :: List.replicate 64 0) ∧
    (colors.length = 20 →
      (f1.drop 5).take 57 = (colorsFlat colors).take 57 ∧
      (f2.drop 1).take 3 = (colorsFlat colors).drop 57 ∧
      (f1.drop 5).take 57 ++ (f2.drop 1).take 3 = colorsFlat colors) ∧
    f1.drop 62 = [0, 0, 0] := by
  obtain ⟨hn, h1, h2⟩ := set_led_ok_elim h
  have hfl := colorsFlat_length colors
  have hhdr : (header mode index speed direction option_byte led_group_size).length = 5 :=
    rfl
  have htk : ((colorsFlat colors).take 57).length ≤ 57 := by
    rw [List.length_take]; omega
  have hp1 : (header mode index speed direction option_byte led_group_size ++
      (colorsFlat colors).take 57).length ≤ 62 := by
    rw [List.length_append, hhdr]; omega
  have hf1 : f1 = (header mode index speed direction option_byte led_group_size ++
      (colorsFlat colors).take 57) ++
      List.replicate (65 - (header mode index speed direction option_byte
        led_group_size ++ (colorsFlat colors).take 57).length) 0 := by
    rw [h1, fill_eq (by omega)]
  have hdrop5 : f1.drop 5 = (colorsFlat colors).take 57 ++
      List.replicate (65 - (header mode index speed direction option_byte
        led_group_size ++ (colorsFlat colors).take 57).length) 0 := by
    rw [hf1, List.append_assoc, List.drop_left' hhdr]
  refine ⟨fun hge hle => ?_, fun h20 => ?_, ?_⟩
  · have hle57 : (colorsFlat colors).length ≤ 57 := by omega
    have htake : (colorsFlat colors).take 57 = colorsFlat colors :=
      List.take_of_length_le hle57
    constructor
    · rw [hdrop5, htake, List.take_left]
    · rw [h2, List.drop_eq_nil_of_le hle57]
      rfl
  · have ht57 : ((colorsFlat colors).take 57).length = 57 := by
      rw [List.length_take]; omega
    have hd3 : ((colorsFlat colors).drop 57).length = 3 := by
      rw [List.length_drop]; omega
    have hA : (f1.drop 5).take 57 = (colorsFlat colors).take 57 := by
      rw [hdrop5]; exact List.take_left' ht57
    have hlen2 : ((3 : Int) :: (colorsFlat colors).drop 57).length = 4 := by
      rw [List.length_cons, hd3]
    have hf2 : f2 = (3 :: (colorsFlat colors).drop 57) ++ List.replicate 61 0 := by
      rw [h2, fill_eq (by omega), hlen2]
    have hB : (f2.drop 1).take 3 = (colorsFlat colors).drop 57 := by
      have hstep : f2.drop 1 = (colorsFlat colors).drop 57 ++ List.replicate 61 0 := by
        rw [hf2]; rfl
      rw [hstep]; exact List.take_left' hd3
    exact ⟨hA, hB, by rw [hA, hB, List.take_append_drop]⟩
  · rw [hf1, List.drop_append_eq_append_drop, List.drop_eq_nil_of_le hp1,
      List.nil_append, List.drop_replicate,
      show 65 - (header mode index speed direction option_byte led_group_size ++
        (colorsFlat colors).take 57).length -
        (62 - (header mode index speed direction option_byte led_group_size ++
        (colorsFlat colors).take 57).length) = 3 from by omega]
    rfl

/-- C2 (witness): a concrete one-color call where all three flattened bytes
sit in frame 1 at offset 5 and bytes [62..65) of frame 1 are zero. -/
theorem spec_C2_witness :
    ∃ f1 f2, set_led 0 [((10 : Int), 20, 30)] 0 0 0 0 0 = .ok (f1, f2) ∧
      (f1.drop 5).take (colorsFlat [((10 : Int), 20, 30)]).length =
        colorsFlat [((10 : Int), 20, 30)] ∧
      f1.drop 62 = [0, 0, 0] := by
  obtain ⟨f1, f2, hok⟩ : ∃ f1 f2, set_led 0 [((10 : Int), 20, 30)] 0 0 0 0 0 =
      .ok (f1, f2) := ⟨_, _, rfl⟩
  have hth := spec_C2 0 0 0 0 0 0 [((10 : Int), 20, 30)] f1 f2 hok
  exact ⟨f1, f2, hok, (hth.1 (by norm_num) (by norm_num)).1, hth.2.2⟩

/-- C4: if any supplied color has a channel outside [0,255] then `set_led`
fails with a ValueError (in the source, raised by the `bytes(...)` conversion
before any USB write): the encoding never silently accepts or clamps an
out-of-range channel. -/
theorem spec_C4 (mode index speed direction option_byte led_group_size : Nat)
    (colors : List Color) (c : Color) (hc : c ∈ colors) (hbad : ¬ validColor c) :
    ∃ msg, set_led mode colors index speed direction option_byte led_group_size =
      .error (.valueError msg) := by
  by_cases hlen : 20 < colors.length
  · exact ⟨"too many colors (there are only 20 leds)", by
      unfold set_led; rw [if_pos hlen]⟩
  · refine ⟨"bytes must be in range(0, 256)", ?_⟩
    unfold set_led
    rw [if_neg hlen]
    unfold pyBytes
    split
    · rename_i hall
      exfalso
      rw [Bool.and_eq_true, List.all_eq_true, List.all_eq_true] at hall
      obtain ⟨x, hxmem, hxf⟩ := exists_invalid_channel hc hbad
      have hx2 : x ∈ (colorsFlat colors).take 57 ++ (colorsFlat colors).drop 57 := by
        rw [List.take_append_drop]; exact hxmem
      rcases List.mem_append.mp hx2 with hx3 | hx3
      · have hvt := hall.1 x (mem_fill_of_mem (List.mem_append.mpr (Or.inr hx3)))
        rw [hxf] at hvt
        exact Bool.noConfusion hvt
      · have hvt := hall.2 x (mem_fill_of_mem (List.mem_cons.mpr (Or.inr hx3)))
        rw [hxf] at hvt
        exact Bool.noConfusion hvt
    · rfl

/-- C4 (witness): a color with red = 300 is rejected. -/
theorem spec_C4_witness :
    ∃ msg, set_led 0 [((300 : Int), 0, 0)] 0 0 0 0 0 = .error (.valueError msg) :=
  spec_C4 0 0 0 0 0 0 [((300 : Int), 0, 0)] ((300 : Int), 0, 0)
    (List.mem_singleton.mpr rfl) (by decide)

/-- C6: on every successful `set_led` call, frame 1 starts with the report id
2, the command id 75, the mode byte, the packed byte
`(direction <<< 4) ||| (option_byte <<< 3)` and the packed byte
`(index <<< 5) ||| (led_group_size <<< 3) ||| speed`; when direction and the
option bit are in range, the direction/option byte has all bits above the low
five equal to zero (it is below 32). -/
theorem spec_C6 (mode index speed direction option_byte led_group_size : Nat)
    (colors : List Color) (f1 f2 : List Int)
    (h : set_led mode colors index speed direction option_byte led_group_size =
      .ok (f1, f2)) (hd : direction ≤ 1) (ho : option_byte ≤ 1) :
    f1.take 5 = [2, 75, (mode : Int),
      (((direction <<< 4) ||| (option_byte <<< 3) : Nat) : Int),
      (((index <<< 5) ||| (led_group_size <<< 3) ||| speed : Nat) : Int)] ∧
    (direction <<< 4) ||| (option_byte <<< 3) < 32 :=
  ⟨by rw [frame1_take_five h]; rfl, dir_opt_byte_lt hd ho⟩

/-- C6 (witness): the header bytes of a concrete call with direction 1, option
bit 1, index 2, group size 2 and speed 3. -/
theorem spec_C6_witness :
    ∃ f1 f2, set_led 4 [((9 : Int), 8, 7)] 2 3 1 1 2 = .ok (f1, f2) ∧
      f1.take 5 = [2, 75, ((4 : Nat) : Int),
        ((((1 : Nat) <<< 4) ||| ((1 : Nat) <<< 3) : Nat) : Int),
        ((((2 : Nat) <<< 5) ||| ((2 : Nat) <<< 3) ||| 3 : Nat) : Int)] ∧
      ((1 : Nat) <<< 4) ||| ((1 : Nat) <<< 3) < 32 := by
  obtain ⟨f1, f2, hok⟩ : ∃ f1 f2, set_led 4 [((9 : Int), 8, 7)] 2 3 1 1 2 =
      .ok (f1, f2) := ⟨_, _, rfl⟩
  have hth := spec_C6 4 2 3 1 1 2 [((9 : Int), 8, 7)] f1 f2 hok (by norm_num)
    (by norm_num)
  exact ⟨f1, f2, hok, hth.1, hth.2⟩

/-- C8: `marquee` fails with the size ValueError for every size outside [3,6]
(in particular sizes 2 and 7), succeeds for every size in [3,6] (in particular
3 and 6) when the color and animation parameters are in range, and on success
the group-size field of the packed header is `size - 3`. -/
theorem spec_C8 (r g b : Int) (speed direction : Nat) (s t : Int)
    (hcol : validColor (r, g, b)) (hsp : speed ≤ 4) (hdir : direction ≤ 1)
    (hs : s < 3 ∨ 6 < s) (ht : 3 ≤ t ∧ t ≤ 6) :
    marquee (r, g, b) speed direction s =
      .error (.valueError "size has to be between 3 and 6") ∧
    ∃ f1 f2, marquee (r, g, b) speed direction t = .ok (f1, f2) ∧
      f1.take 5 = header PresetMode.MARQUEE 0 speed direction 0 (t - 3).toNat := by
  constructor
  · unfold marquee
    rw [if_pos hs]
  · have hng : ¬ (t < 3 ∨ 6 < t) := by omega
    have hgrp : (t - 3).toNat ≤ 3 := by omega
    have hok := @set_led_ok_of_valid PresetMode.MARQUEE 0 speed direction 0
      (t - 3).toNat (List.replicate LED_COUNT ((r, g, b) : Color))
      (by simp [LED_COUNT]) (by norm_num [PresetMode.MARQUEE])
      (lt_of_lt_of_le (dir_opt_byte_lt hdir (by norm_num)) (by norm_num))
      (packed_byte_lt (by norm_num) hgrp (by omega))
      (fun c hcm => by rw [List.eq_of_mem_replicate hcm]; exact hcol)
    unfold marquee set_led_preset
    rw [if_neg hng]
    exact ⟨_, _, hok, by rw [frame1_take_five hok]⟩

/-- C8 (witness): size 2 fails, size 3 succeeds with group-size field 0. -/
theorem spec_C8_witness :
    marquee ((255 : Int), 0, 0) 2 0 2 =
      .error (.valueError "size has to be between 3 and 6") ∧
    ∃ f1 f2, marquee ((255 : Int), 0, 0) 2 0 3 = .ok (f1, f2) ∧
      f1.take 5 = header PresetMode.MARQUEE 0 2 0 0 ((3 : Int) - 3).toNat :=
  spec_C8 255 0 0 2 0 2 3 (by decide) (by norm_num) (by norm_num)
    (Or.inl (by norm_num)) (by norm_num)

/-- C9: `alternating(color1, color2, size=4, moving=true)` issues exactly two
`set_led` calls in order, the first for color1 with index 0 and the second for
color2 with index 1, both with the shared speed and direction, option bit 1
and group size 1 (size 4 encoded as 4 - 3). -/
theorem spec_C9 (r1 g1 b1 r2 g2 b2 : Int) (speed direction : Nat)
    (h1 : validColor (r1, g1, b1)) (h2 : validColor (r2, g2, b2))
    (hsp : speed ≤ 4) (hdir : direction ≤ 1) :
    ∃ p1 p2,
      alternating (r1, g1, b1) (r2, g2, b2) speed direction 4 true = .ok [p1, p2] ∧
      set_led PresetMode.ALTERNATING (List.replicate LED_COUNT ((r1, g1, b1) : Color))
        0 speed direction 1 1 = .ok p1 ∧
      set_led PresetMode.ALTERNATING (List.replicate LED_COUNT ((r2, g2, b2) : Color))
        1 speed direction 1 1 = .ok p2 := by
  have hok1 := @set_led_ok_of_valid PresetMode.ALTERNATING 0 speed direction 1 1
    (List.replicate LED_COUNT ((r1, g1, b1) : Color))
    (by simp [LED_COUNT]) (by norm_num [PresetMode.ALTERNATING])
    (lt_of_lt_of_le (dir_opt_byte_lt hdir (by norm_num)) (by norm_num))
    (packed_byte_lt (by norm_num) (by norm_num) (by omega))
    (fun c hcm => by rw [List.eq_of_mem_replicate hcm]; exact h1)
  have hok2 := @set_led_ok_of_valid PresetMode.ALTERNATING 1 speed direction 1 1
    (List.replicate LED_COUNT ((r2, g2, b2) : Color))
    (by simp [LED_COUNT]) (by norm_num [PresetMode.ALTERNATING])
    (lt_of_lt_of_le (dir_opt_byte_lt hdir (by norm_num)) (by norm_num))
    (packed_byte_lt (by norm_num) (by norm_num) (by omega))
    (fun c hcm => by rw [List.eq_of_mem_replicate hcm]; exact h2)
  refine ⟨_, _, ?_, hok1, hok2⟩
  unfold alternating
  rw [if_neg (by norm_num)]
  unfold set_led_preset
  dsimp only
  simp only [show ((4 : Int) - 3).toNat = 1 from rfl, if_true,
    show (if (true : Bool) then (1 : Nat) else 0) = 1 from rfl, hok1, hok2]
  rfl

/-- C9 (witness): the two ordered calls at concrete colors, speed 2 and
direction 0. -/
theorem spec_C9_witness :
    ∃ p1 p2,
      alternating ((255 : Int), 0, 0) ((0 : Int), 0, 255) 2 0 4 true = .ok [p1, p2] ∧
      set_led PresetMode.ALTERNATING
        (List.replicate LED_COUNT (((255 : Int), 0, 0) : Color)) 0 2 0 1 1 = .ok p1 ∧
      set_led PresetMode.ALTERNATING
        (List.replicate LED_COUNT (((0 : Int), 0, 255) : Color)) 1 2 0 1 1 = .ok p2 :=
  spec_C9 255 0 0 0 0 255 2 0 (by decide) (by decide) (by norm_num) (by norm_num)
